import Mathlib

/-!
Verification development for the `jitsi-dashboard` Django application.

The definitions below are a shallow embedding of the application's
data layer (`dashboard/models.py`), webhook / reservation reconciliation
logic (`dashboard/views.py`) and the Jitsi API client
(`dashboard/jitsi_api.py`).  Database tables are lists of rows, wall-clock
time is an explicit integer parameter (seconds), and the network is an
explicit oracle from URLs to optional responses.
-/

namespace JitsiDashboard

/-! ## Data layer: rows of the ORM models that the reconciliation logic touches -/

/-- A row of the `JitsiServer` model (the fields used by the views). -/
structure JitsiServerRow where
  pk : Nat
  name : String
  is_active : Bool
  is_primary : Bool
  deriving DecidableEq, Repr

/-- A row of the `Conference` model (the fields used by the webhook and
reservation logic).  Timestamps are integer seconds. -/
structure ConferenceRow where
  id : Nat
  server_id : Nat
  room_name : String
  status : String
  started_at : Option Int
  ended_at : Option Int
  max_participants : Nat
  deriving DecidableEq, Repr

/-- A row of the `Participant` model (the fields used by the webhook logic). -/
structure ParticipantRow where
  id : Nat
  conference_id : Nat
  participant_id : String
  name : String
  email : String
  is_moderator : Bool
  joined_at : Int
  left_at : Option Int
  disconnect_reason : String
  deriving DecidableEq, Repr

/-- The database state seen by the webhook / reservation handlers.
`revoked_rooms` models the `RevokedRoom` blocklist, `next_conf_id` and
`next_part_id` the auto-assigned primary keys of the two tables. -/
structure DB where
  servers : List JitsiServerRow
  conferences : List ConferenceRow
  participants : List ParticipantRow
  revoked_rooms : List String
  next_conf_id : Nat
  next_part_id : Nat
  deriving DecidableEq, Repr

/-- The `participant` object of a webhook payload; `none` models a missing
JSON key, so that the handlers' `.get(key, default)` calls are explicit. -/
structure ParticipantData where
  participantId : Option String
  name : Option String
  email : Option String
  moderator : Option Bool
  disconnectReason : Option String
  deriving DecidableEq, Repr

/-- A webhook payload after field extraction: `roomName` is the result of
`data.get('roomName', '') or data.get('room', {}).get('name', '')`. -/
structure WebhookData where
  roomName : String
  participant : ParticipantData
  deriving DecidableEq, Repr

/-! ## Webhook handlers (`dashboard/views.py`) -/

/-- Server selection used by `_handle_room_created`:
`JitsiServer.objects.filter(is_primary=True).first()`, falling back to
`filter(is_active=True).first()`. -/
def pick_server (db : DB) : Option JitsiServerRow :=
  match db.servers.find? (fun s => s.is_primary) with
  | some s => some s
  | none => db.servers.find? (fun s => s.is_active)

/-- The field update applied by `Conference.objects.update_or_create(...,
defaults={'status': 'active', 'started_at': timezone.now()})` on an
existing row. -/
def conf_upsert_update (now : Int) (c : ConferenceRow) : ConferenceRow :=
  { c with status := "active", started_at := some now }

/-- The fresh `Conference` row inserted by `update_or_create` when no row
matches: the lookup fields plus the `defaults`, remaining fields at their
model defaults. -/
def new_conf (room : String) (sid : Nat) (cid : Nat) (now : Int) : ConferenceRow :=
  { id := cid
    server_id := sid
    room_name := room
    status := "active"
    started_at := some now
    ended_at := none
    max_participants := 0 }

/-- `Conference.objects.update_or_create(room_name=..., server=..., defaults=...)`:
with no match a fresh row is inserted, with exactly one match it is updated,
and with several matches `MultipleObjectsReturned` aborts the handler
leaving the table unchanged. -/
def update_or_create_conference (room : String) (sid : Nat) (now : Int) (db : DB) : DB :=
  match db.conferences.filter (fun c => c.room_name == room && c.server_id == sid) with
  | [] =>
    { db with
      conferences := db.conferences ++ [new_conf room sid db.next_conf_id now]
      next_conf_id := db.next_conf_id + 1 }
  | [c] =>
    { db with conferences :=
        db.conferences.map (fun x => if x.id == c.id then conf_upsert_update now x else x) }
  | _ => db

/-- `_handle_room_created` of `dashboard/views.py`. -/
def handle_room_created (data : WebhookData) (now : Int) (db : DB) : DB :=
  if data.roomName == "" then db
  else
    match pick_server db with
    | none => db
    | some server => update_or_create_conference data.roomName server.pk now db

/-- `_handle_room_destroyed` of `dashboard/views.py`:
`Conference.objects.filter(room_name=..., status='active')
.update(status='ended', ended_at=timezone.now())`. -/
def handle_room_destroyed (data : WebhookData) (now : Int) (db : DB) : DB :=
  if data.roomName == "" then db
  else
    { db with conferences := db.conferences.map (fun c =>
        if c.room_name == data.roomName && c.status == "active"
        then { c with status := "ended", ended_at := some now } else c) }

/-- `Conference.objects.filter(room_name=..., status='active').first()`. -/
def active_conf_lookup (room : String) (db : DB) : Option ConferenceRow :=
  db.conferences.find? (fun c => c.room_name == room && c.status == "active")

/-- `_handle_participant_joined` of `dashboard/views.py`: unconditionally
`Participant.objects.create(...)` when an active conference exists, then
bump `max_participants` to the live participant count if it grew. -/
def handle_participant_joined (data : WebhookData) (now : Int) (db : DB) : DB :=
  if data.roomName == "" then db
  else
    match active_conf_lookup data.roomName db with
    | none => db
    | some conf =>
      let pd := data.participant
      let newPart : ParticipantRow :=
        { id := db.next_part_id
          conference_id := conf.id
          participant_id := pd.participantId.getD ""
          name := pd.name.getD "Unknown"
          email := pd.email.getD ""
          is_moderator := pd.moderator.getD false
          joined_at := now
          left_at := none
          disconnect_reason := "" }
      let participants' := db.participants ++ [newPart]
      let current_count :=
        (participants'.filter (fun q => q.conference_id == conf.id && q.left_at == none)).length
      let conferences' :=
        if conf.max_participants < current_count then
          db.conferences.map (fun x =>
            if x.id == conf.id then { x with max_participants := current_count } else x)
        else db.conferences
      { db with
        participants := participants'
        conferences := conferences'
        next_part_id := db.next_part_id + 1 }

/-- The room name of a participant's conference, via its foreign key
(the `conference__room_name` lookup in `_handle_participant_left`). -/
def conference_room_of (confs : List ConferenceRow) (cid : Nat) : Option String :=
  (confs.find? (fun c => c.id == cid)).map (fun c => c.room_name)

/-- `_handle_participant_left` of `dashboard/views.py`:
`Participant.objects.filter(conference__room_name=..., participant_id=...,
left_at__isnull=True).update(left_at=timezone.now(),
disconnect_reason=...)`. -/
def handle_participant_left (data : WebhookData) (now : Int) (db : DB) : DB :=
  if data.roomName != "" && data.participant.participantId.getD "" != "" then
    { db with participants := db.participants.map (fun q =>
        if conference_room_of db.conferences q.conference_id == some data.roomName
            && q.participant_id == data.participant.participantId.getD ""
            && q.left_at == none
        then { q with
               left_at := some now
               disconnect_reason := data.participant.disconnectReason.getD "" }
        else q) }
  else db

/-! ## C1: idempotency of the webhook reconciliation handlers -/

theorem conf_upsert_update_idem (now : Int) (c : ConferenceRow) :
    conf_upsert_update now (conf_upsert_update now c) = conf_upsert_update now c := rfl

theorem uoc_servers (room : String) (sid : Nat) (now : Int) (db : DB) :
    (update_or_create_conference room sid now db).servers = db.servers := by
  unfold update_or_create_conference
  split <;> rfl

theorem pick_server_uoc (room : String) (sid : Nat) (now : Int) (db : DB) :
    pick_server (update_or_create_conference room sid now db) = pick_server db := by
  unfold pick_server
  rw [uoc_servers]

theorem update_or_create_conference_idem (room : String) (sid : Nat) (now : Int) (db : DB)
    (hwf : ∀ c ∈ db.conferences, c.id ≠ db.next_conf_id) :
    update_or_create_conference room sid now (update_or_create_conference room sid now db)
      = update_or_create_conference room sid now db := by
  have hpres : ∀ x : ConferenceRow,
      ((conf_upsert_update now x).room_name == room && (conf_upsert_update now x).server_id == sid)
        = (x.room_name == room && x.server_id == sid) := fun _ => rfl
  cases h : db.conferences.filter (fun c => c.room_name == room && c.server_id == sid) with
  | nil =>
    have e1 : update_or_create_conference room sid now db =
        { db with
          conferences := db.conferences ++ [new_conf room sid db.next_conf_id now]
          next_conf_id := db.next_conf_id + 1 } := by
      unfold update_or_create_conference
      rw [h]
    have hmap : (db.conferences ++ [new_conf room sid db.next_conf_id now]).map (fun x =>
          if x.id == (new_conf room sid db.next_conf_id now).id
          then conf_upsert_update now x else x)
        = db.conferences ++ [new_conf room sid db.next_conf_id now] := by
      rw [List.map_append]
      congr 1
      · calc db.conferences.map (fun x =>
              if x.id == (new_conf room sid db.next_conf_id now).id
              then conf_upsert_update now x else x)
            = db.conferences.map id := by
              apply List.map_congr_left
              intro x hx
              have hne : (x.id == db.next_conf_id) = false :=
                beq_eq_false_iff_ne.mpr (hwf x hx)
              simp [new_conf, hne]
          _ = db.conferences := List.map_id _
      · simp [new_conf, conf_upsert_update]
    have hf : (db.conferences ++ [new_conf room sid db.next_conf_id now]).filter
          (fun c => c.room_name == room && c.server_id == sid)
        = [new_conf room sid db.next_conf_id now] := by
      rw [List.filter_append, h]
      simp [new_conf]
    rw [e1]
    unfold update_or_create_conference
    dsimp only
    rw [hf]
    dsimp only
    rw [hmap]
  | cons c tl =>
    cases tl with
    | nil =>
      have hcmem : c ∈ db.conferences.filter
          (fun c => c.room_name == room && c.server_id == sid) := by
        rw [h]
        exact List.mem_cons_self _ _
      have hc : (c.room_name == room && c.server_id == sid) = true :=
        (List.mem_filter.mp hcmem).2
      have e1 : update_or_create_conference room sid now db =
          { db with conferences := db.conferences.map (fun x =>
              if x.id == c.id then conf_upsert_update now x else x) } := by
        unfold update_or_create_conference
        rw [h]
      have hfs : (db.conferences.map (fun x =>
          if x.id == c.id then conf_upsert_update now x else x)).filter
            (fun x => x.room_name == room && x.server_id == sid)
          = [conf_upsert_update now c] := by
        rw [List.filter_map]
        have hcomp : ((fun x : ConferenceRow => x.room_name == room && x.server_id == sid) ∘
            (fun x => if x.id == c.id then conf_upsert_update now x else x))
            = fun x : ConferenceRow => x.room_name == room && x.server_id == sid := by
          funext x
          by_cases hx : (x.id == c.id) = true
          · simp [Function.comp, hx, hpres]
          · simp only [Bool.not_eq_true] at hx
            simp [Function.comp, hx]
        rw [hcomp, h]
        have : ((c.id == c.id) = true) := beq_self_eq_true c.id
        simp [this]
      have hmap2 : (db.conferences.map (fun x =>
            if x.id == c.id then conf_upsert_update now x else x)).map (fun x =>
            if x.id == (conf_upsert_update now c).id then conf_upsert_update now x else x)
          = db.conferences.map (fun x =>
            if x.id == c.id then conf_upsert_update now x else x) := by
        rw [List.map_map]
        apply List.map_congr_left
        intro x _
        by_cases hx : (x.id == c.id) = true
        · simp [Function.comp, hx, conf_upsert_update]
        · simp only [Bool.not_eq_true] at hx
          simp [Function.comp, conf_upsert_update, hx]
      rw [e1]
      unfold update_or_create_conference
      dsimp only
      rw [hfs]
      dsimp only
      rw [hmap2]
    | cons c2 tl2 =>
      have e1 : update_or_create_conference room sid now db = db := by
        unfold update_or_create_conference
        rw [h]
      rw [e1, e1]

/-- The pointwise update of `_handle_room_destroyed` is idempotent: a row it
ends is no longer `active`, so a second pass leaves it alone. -/
theorem destroy_row_idem (room : String) (now : Int) (c : ConferenceRow) :
    (fun c : ConferenceRow =>
      if c.room_name == room && c.status == "active"
      then { c with status := "ended", ended_at := some now } else c)
    ((fun c : ConferenceRow =>
      if c.room_name == room && c.status == "active"
      then { c with status := "ended", ended_at := some now } else c) c)
    = (fun c : ConferenceRow =>
      if c.room_name == room && c.status == "active"
      then { c with status := "ended", ended_at := some now } else c) c := by
  by_cases hc : (c.room_name == room && c.status == "active") = true
  · simp [hc]
  · simp only [Bool.not_eq_true] at hc
    simp [hc]

def c1_db : DB :=
  { servers := []
    conferences := [{ id := 0
                      server_id := 0
                      room_name := "room1"
                      status := "active"
                      started_at := some 0
                      ended_at := none
                      max_participants := 0 }]
    participants := []
    revoked_rooms := []
    next_conf_id := 1
    next_part_id := 0 }

def c1_event : WebhookData :=
  { roomName := "room1"
    participant := { participantId := some "p1"
                     name := some "Alice"
                     email := none
                     moderator := none
                     disconnectReason := none } }

/-- C1: the claim that all four handlers are idempotent is false:
delivering the same `PARTICIPANT_JOINED` event twice to
`_handle_participant_joined` inserts two `Participant` rows, so the state
after the duplicate differs from the state after a single delivery. -/
theorem C1_participant_joined_not_idempotent :
    handle_participant_joined c1_event 0 (handle_participant_joined c1_event 0 c1_db)
      ≠ handle_participant_joined c1_event 0 c1_db := by decide

/-- C1 (amended): the handlers `_handle_room_created`,
`_handle_room_destroyed` and `_handle_participant_left` are idempotent
upserts — re-processing the same event (with the same timestamp) leaves the
`Conference` and `Participant` tables unchanged — on every database state
whose conference primary keys are fresh with respect to the
auto-increment counter; `_handle_participant_joined` is not idempotent,
as each delivery inserts a new `Participant` row. -/
theorem C1_handlers_idempotent (data : WebhookData) (now : Int) (db : DB)
    (hwf : ∀ c ∈ db.conferences, c.id ≠ db.next_conf_id) :
    handle_room_created data now (handle_room_created data now db)
        = handle_room_created data now db
    ∧ handle_room_destroyed data now (handle_room_destroyed data now db)
        = handle_room_destroyed data now db
    ∧ handle_participant_left data now (handle_participant_left data now db)
        = handle_participant_left data now db := by
  refine ⟨?_, ?_, ?_⟩
  · cases hr : (data.roomName == "") with
    | true =>
      unfold handle_room_created
      rw [hr]
      simp
    | false =>
      cases hs : pick_server db with
      | none =>
        have e1 : handle_room_created data now db = db := by
          unfold handle_room_created
          rw [hr, hs]
          simp
        rw [e1]
        exact e1
      | some server =>
        have e1 : handle_room_created data now db =
            update_or_create_conference data.roomName server.pk now db := by
          unfold handle_room_created
          rw [hr, hs]
          simp
        rw [e1]
        unfold handle_room_created
        rw [hr, pick_server_uoc, hs]
        simp only [Bool.false_eq_true, if_false]
        exact update_or_create_conference_idem _ _ _ _ hwf
  · cases hr : (data.roomName == "") with
    | true =>
      unfold handle_room_destroyed
      rw [hr]
      simp
    | false =>
      have e1 : handle_room_destroyed data now db =
          { db with conferences := db.conferences.map (fun c =>
              if c.room_name == data.roomName && c.status == "active"
              then { c with status := "ended", ended_at := some now } else c) } := by
        unfold handle_room_destroyed
        rw [hr]
        simp
      rw [e1]
      unfold handle_room_destroyed
      rw [hr]
      simp only [Bool.false_eq_true, if_false]
      have : (db.conferences.map (fun c =>
          if c.room_name == data.roomName && c.status == "active"
          then { c with status := "ended", ended_at := some now } else c)).map (fun c =>
          if c.room_name == data.roomName && c.status == "active"
          then { c with status := "ended", ended_at := some now } else c)
          = db.conferences.map (fun c =>
          if c.room_name == data.roomName && c.status == "active"
          then { c with status := "ended", ended_at := some now } else c) := by
        rw [List.map_map]
        apply List.map_congr_left
        intro x _
        exact destroy_row_idem data.roomName now x
      rw [this]
  · cases hr : (data.roomName != "" && data.participant.participantId.getD "" != "") with
    | false =>
      have e1 : handle_participant_left data now db = db := by
        unfold handle_participant_left
        rw [hr]
        simp
      rw [e1]
      exact e1
    | true =>
      have e1 : handle_participant_left data now db =
          { db with participants := db.participants.map (fun q =>
              if conference_room_of db.conferences q.conference_id == some data.roomName
                  && q.participant_id == data.participant.participantId.getD ""
                  && q.left_at == none
              then { q with
                     left_at := some now
                     disconnect_reason := data.participant.disconnectReason.getD "" }
              else q) } := by
        unfold handle_participant_left
        rw [hr]
        simp
      rw [e1]
      unfold handle_participant_left
      rw [hr]
      have hmap : (db.participants.map (fun q =>
            if conference_room_of db.conferences q.conference_id == some data.roomName
                && q.participant_id == data.participant.participantId.getD ""
                && q.left_at == none
            then { q with
                   left_at := some now
                   disconnect_reason := data.participant.disconnectReason.getD "" }
            else q)).map (fun q =>
            if conference_room_of db.conferences q.conference_id == some data.roomName
                && q.participant_id == data.participant.participantId.getD ""
                && q.left_at == none
            then { q with
                   left_at := some now
                   disconnect_reason := data.participant.disconnectReason.getD "" }
            else q)
          = db.participants.map (fun q =>
            if conference_room_of db.conferences q.conference_id == some data.roomName
                && q.participant_id == data.participant.participantId.getD ""
                && q.left_at == none
            then { q with
                   left_at := some now
                   disconnect_reason := data.participant.disconnectReason.getD "" }
            else q) := by
        rw [List.map_map]
        apply List.map_congr_left
        intro q _
        by_cases hq : (conference_room_of db.conferences q.conference_id == some data.roomName
            && q.participant_id == data.participant.participantId.getD ""
            && q.left_at == none) = true
        · simp only [Function.comp, hq, if_pos]
          have : (conference_room_of db.conferences q.conference_id == some data.roomName
              && q.participant_id == data.participant.participantId.getD ""
              && (some now == (none : Option Int))) = false := by
            simp
          simp [this]
        · simp only [Bool.not_eq_true] at hq
          simp [Function.comp, hq]
      simp only [if_pos, hmap]

/-- Witness for `C1_handlers_idempotent` at a concrete event and database. -/
theorem C1_handlers_idempotent_witness :
    handle_room_created c1_event 0 (handle_room_created c1_event 0 c1_db)
        = handle_room_created c1_event 0 c1_db
    ∧ handle_room_destroyed c1_event 0 (handle_room_destroyed c1_event 0 c1_db)
        = handle_room_destroyed c1_event 0 c1_db
    ∧ handle_participant_left c1_event 0 (handle_participant_left c1_event 0 c1_db)
        = handle_participant_left c1_event 0 c1_db :=
  C1_handlers_idempotent c1_event 0 c1_db (by decide)

/-! ## C2: the Jicofo reservation endpoint (`api_reservation`, POST branch) -/

/-- Python's `str.lower()` as used on room names (character-wise lower-casing). -/
def pyLower (s : String) : String := String.mk (s.data.map Char.toLower)

/-- Modelled from the spec: the `RevokedRoom` model is imported and used by
`dashboard/views.py` but its class definition is not among the source files;
from its call sites, `is_revoked` is a membership test of a room name in the
blocklist of revoked rooms. -/
def RevokedRoom_is_revoked (db : DB) (room : String) : Bool :=
  db.revoked_rooms.contains room

/-- The `POST` branch of `api_reservation` in `dashboard/views.py`.
`raw_name` is the extracted `name` parameter; the result is the HTTP status
code of the `JsonResponse` together with the new database state. -/
def api_reservation_post (raw_name : String) (now : Int) (db : DB) : Nat × DB :=
  if raw_name == "" then (400, db)
  else
    if RevokedRoom_is_revoked db (pyLower raw_name) then (404, db)
    else
      match db.conferences.find? (fun c => c.room_name == (pyLower raw_name)) with
      | some conference =>
        (200, { db with conferences := db.conferences.map (fun x =>
            if x.id == conference.id
            then { x with status := "active", started_at := some now } else x) })
      | none => (404, db)

def c2_db : DB :=
  { servers := []
    conferences := []
    participants := []
    revoked_rooms := []
    next_conf_id := 0
    next_part_id := 0 }

def c2_conf : ConferenceRow :=
  { id := 7
    server_id := 1
    room_name := "room2"
    status := "scheduled"
    started_at := none
    ended_at := none
    max_participants := 0 }

def c2_db2 : DB :=
  { servers := []
    conferences := [c2_conf]
    participants := []
    revoked_rooms := []
    next_conf_id := 8
    next_part_id := 0 }

/-- C2: the claim that `api_reservation` "inserts a Conference row when none
exists" is false: a POST for a non-revoked, unknown room name returns 404
and leaves the conference table empty (strict mode). -/
theorem C2_no_insert_counterexample :
    (api_reservation_post "room1" 0 c2_db).1 = 404
    ∧ (api_reservation_post "room1" 0 c2_db).2.conferences = [] := by decide

/-- C2 (amended): for every POST to `api_reservation` carrying a non-revoked
room name, the endpoint updates the existing `Conference` row for that room
name (setting `status` to `'active'` and `started_at` to the current time)
and answers 200 when one exists; when none exists it answers 404 and inserts
nothing. -/
theorem C2_reservation_post_upsert (raw : String) (now : Int) (db : DB)
    (hname : (raw == "") = false)
    (hrev : RevokedRoom_is_revoked db (pyLower raw) = false) :
    (db.conferences.find? (fun c => c.room_name == (pyLower raw)) = none →
      api_reservation_post raw now db = (404, db))
    ∧ (∀ conference, db.conferences.find? (fun c => c.room_name == (pyLower raw)) = some conference →
      api_reservation_post raw now db =
        (200, { db with conferences := db.conferences.map (fun x =>
            if x.id == conference.id
            then { x with status := "active", started_at := some now } else x) })) := by
  constructor
  · intro hfind
    simp [api_reservation_post, hname, hrev, hfind]
  · intro conference hfind
    simp [api_reservation_post, hname, hrev, hfind]

/-- Witness for `C2_reservation_post_upsert`: a missing room answers 404
without touching the table, an existing room is switched to `active`. -/
theorem C2_reservation_post_upsert_witness :
    api_reservation_post "room1" 0 c2_db = (404, c2_db)
    ∧ api_reservation_post "Room2" 5 c2_db2 =
        (200, { c2_db2 with conferences := c2_db2.conferences.map (fun x =>
            if x.id == c2_conf.id
            then { x with status := "active", started_at := some 5 } else x) }) :=
  ⟨(C2_reservation_post_upsert "room1" 0 c2_db (by decide) (by decide)).1 (by decide),
   (C2_reservation_post_upsert "Room2" 5 c2_db2 (by decide) (by decide)).2 c2_conf (by decide)⟩

/-! ## C7: participant lifecycle transitions driven by webhooks -/

/-- C7: a `PARTICIPANT_JOINED` event creates a `Participant` row only when an
active `Conference` with the event's room exists (otherwise the database is
untouched), and a `PARTICIPANT_LEFT` event changes only participants of that
room whose `left_at` is still null, setting `left_at` and
`disconnect_reason`. -/
theorem C7_participant_lifecycle (data : WebhookData) (now : Int) (db : DB) :
    (active_conf_lookup data.roomName db = none → handle_participant_joined data now db = db)
    ∧ ((data.roomName == "") = false →
        ∀ conf, active_conf_lookup data.roomName db = some conf →
        ∃ newPart : ParticipantRow, newPart.conference_id = conf.id ∧ newPart.left_at = none ∧
          (handle_participant_joined data now db).participants = db.participants ++ [newPart])
    ∧ List.Forall₂ (fun q q' => q' = q ∨
        (q.left_at = none
          ∧ conference_room_of db.conferences q.conference_id = some data.roomName
          ∧ q' = { q with
                   left_at := some now
                   disconnect_reason := data.participant.disconnectReason.getD "" }))
        db.participants (handle_participant_left data now db).participants := by
  refine ⟨?_, ?_, ?_⟩
  · intro hnone
    cases hr : (data.roomName == "") with
    | true => simp [handle_participant_joined, hr]
    | false => simp [handle_participant_joined, hr, hnone]
  · intro hr conf hconf
    simp only [handle_participant_joined, hr, Bool.false_eq_true, if_false, hconf]
    exact ⟨_, rfl, rfl, rfl⟩
  · cases hr : (data.roomName != "" && data.participant.participantId.getD "" != "") with
    | false =>
      have e1 : handle_participant_left data now db = db := by
        unfold handle_participant_left
        rw [hr]
        simp
      rw [e1]
      exact List.forall₂_same.mpr (fun x _ => Or.inl rfl)
    | true =>
      have e1 : (handle_participant_left data now db).participants
          = db.participants.map (fun q =>
              if conference_room_of db.conferences q.conference_id == some data.roomName
                  && q.participant_id == data.participant.participantId.getD ""
                  && q.left_at == none
              then { q with
                     left_at := some now
                     disconnect_reason := data.participant.disconnectReason.getD "" }
              else q) := by
        unfold handle_participant_left
        rw [hr]
        simp
      rw [e1]
      rw [List.forall₂_map_right_iff]
      apply List.forall₂_same.mpr
      intro q _
      by_cases hq : (conference_room_of db.conferences q.conference_id == some data.roomName
          && q.participant_id == data.participant.participantId.getD ""
          && q.left_at == none) = true
      · right
        have h1 : (conference_room_of db.conferences q.conference_id
            == some data.roomName) = true := by
          have := (Bool.and_eq_true _ _).mp hq
          exact (Bool.and_eq_true _ _).mp this.1 |>.1
        have h3 : (q.left_at == none) = true := ((Bool.and_eq_true _ _).mp hq).2
        refine ⟨eq_of_beq h3, eq_of_beq h1, ?_⟩
        simp [hq]
      · left
        simp only [Bool.not_eq_true] at hq
        simp [hq]

def c7_event : WebhookData :=
  { roomName := "room9"
    participant := { participantId := some "p9"
                     name := some "Bob"
                     email := none
                     moderator := none
                     disconnectReason := some "left" } }

def c7_conf : ConferenceRow :=
  { id := 3
    server_id := 1
    room_name := "room9"
    status := "active"
    started_at := some 0
    ended_at := none
    max_participants := 1 }

def c7_db : DB :=
  { servers := []
    conferences := [c7_conf]
    participants := [{ id := 0
                       conference_id := 3
                       participant_id := "p9"
                       name := "Bob"
                       email := ""
                       is_moderator := false
                       joined_at := 0
                       left_at := none
                       disconnect_reason := "" }]
    revoked_rooms := []
    next_conf_id := 4
    next_part_id := 1 }

def c7_db_empty : DB :=
  { servers := []
    conferences := []
    participants := []
    revoked_rooms := []
    next_conf_id := 0
    next_part_id := 0 }

/-- Witness for `C7_participant_lifecycle` at concrete events and databases. -/
theorem C7_participant_lifecycle_witness :
    handle_participant_joined c7_event 0 c7_db_empty = c7_db_empty
    ∧ (∃ newPart : ParticipantRow, newPart.conference_id = c7_conf.id ∧ newPart.left_at = none ∧
        (handle_participant_joined c7_event 1 c7_db).participants = c7_db.participants ++ [newPart])
    ∧ List.Forall₂ (fun q q' => q' = q ∨
        (q.left_at = none
          ∧ conference_room_of c7_db.conferences q.conference_id = some c7_event.roomName
          ∧ q' = { q with
                   left_at := some 2
                   disconnect_reason := c7_event.participant.disconnectReason.getD "" }))
        c7_db.participants (handle_participant_left c7_event 2 c7_db).participants :=
  ⟨(C7_participant_lifecycle c7_event 0 c7_db_empty).1 (by decide),
   (C7_participant_lifecycle c7_event 1 c7_db).2.1 (by decide) c7_conf (by decide),
   (C7_participant_lifecycle c7_event 2 c7_db).2.2⟩

/-! ## C3: the inventory of persistent model types -/

/-- The model classes referenced by the application code
(`dashboard/models.py` plus the `RevokedRoom` import in
`dashboard/views.py`). -/
inductive ModelType where
  | jitsiServer
  | conference
  | participant
  | recording
  | webhookEvent
  | dashboardSettings
  | revokedRoom
  deriving DecidableEq, Repr

/-- The six model types named by the specification's data-layer inventory. -/
def spec_models : List ModelType :=
  [.jitsiServer, .conference, .participant, .recording, .webhookEvent, .dashboardSettings]

/-- The view functions and endpoints of `dashboard/views.py`. -/
inductive Operation where
  | dashboard_home
  | conference_list
  | conference_detail
  | create_meeting
  | delete_conference
  | edit_conference
  | participant_list
  | sync_conference_participants
  | kick_participant_view
  | recording_list
  | analytics
  | settings_view
  | api_server_stats
  | api_colibri_stats
  | api_generate_token
  | api_start_recording
  | api_stop_recording
  | api_check_room_access
  | api_reservation
  | webhook_handler
  deriving DecidableEq, Repr

/-- The model types each view of `dashboard/views.py` reads or writes
(`webhook_handler` includes its `_handle_*` helpers; pure proxy endpoints
touch no model). -/
def models_touched : Operation → List ModelType
  | .dashboard_home => [.conference, .participant, .jitsiServer, .dashboardSettings]
  | .conference_list => [.conference, .jitsiServer]
  | .conference_detail => [.conference, .participant, .recording]
  | .create_meeting => [.jitsiServer, .conference, .participant]
  | .delete_conference => [.conference, .revokedRoom]
  | .edit_conference => [.conference, .jitsiServer]
  | .participant_list => [.participant]
  | .sync_conference_participants => [.conference, .participant]
  | .kick_participant_view => [.conference, .participant]
  | .recording_list => [.recording]
  | .analytics => [.conference, .participant]
  | .settings_view => [.dashboardSettings, .jitsiServer]
  | .api_server_stats => []
  | .api_colibri_stats => []
  | .api_generate_token => []
  | .api_start_recording => []
  | .api_stop_recording => []
  | .api_check_room_access => [.revokedRoom]
  | .api_reservation => [.revokedRoom, .conference]
  | .webhook_handler => [.webhookEvent, .jitsiServer, .conference, .participant]

/-- C3: the claim that no operation reads or writes a model outside the six
listed ones is false: `delete_conference` writes the `RevokedRoom`
blocklist (`RevokedRoom.revoke`), a seventh model type. -/
theorem C3_seventh_model_counterexample :
    ModelType.revokedRoom ∈ models_touched Operation.delete_conference
    ∧ ModelType.revokedRoom ∉ spec_models := by decide

/-- C3 (amended): the persistent data layer consists of seven model types —
the six listed by the specification plus `RevokedRoom` — and every
operation of the program touches only models among these seven. -/
theorem C3_models_within_seven (op : Operation) :
    (models_touched op).all
      (fun m => (spec_models ++ [ModelType.revokedRoom]).contains m) = true := by
  cases op <;> rfl

/-! ## C4: the derived `Conference.duration` property -/

/-- `Conference.duration` from `dashboard/models.py`; Python's
`int(delta.total_seconds() / 60)` truncates toward zero, i.e. `Int.tdiv`. -/
def Conference_duration (c : ConferenceRow) (now : Int) : Int :=
  match c.started_at, c.ended_at with
  | some started, some ended => (ended - started).tdiv 60
  | some started, none =>
    if c.status == "active" then (now - started).tdiv 60 else 0
  | none, _ => 0

/-- C4: `duration` is the whole-minute (truncated) difference of
`ended_at` and `started_at` when both are set; the truncated difference of
the current time and `started_at` when only `started_at` is set and the
status is `'active'`; and 0 in every other case. -/
theorem C4_duration_cases (c : ConferenceRow) (now : Int) :
    (∀ s e, c.started_at = some s → c.ended_at = some e →
        Conference_duration c now = (e - s).tdiv 60)
    ∧ (∀ s, c.started_at = some s → c.ended_at = none → c.status = "active" →
        Conference_duration c now = (now - s).tdiv 60)
    ∧ ((c.started_at = none ∨ (c.ended_at = none ∧ c.status ≠ "active")) →
        Conference_duration c now = 0) := by
  refine ⟨?_, ?_, ?_⟩
  · intro s e hs he
    simp [Conference_duration, hs, he]
  · intro s hs he hst
    simp [Conference_duration, hs, he, hst]
  · intro h
    cases h with
    | inl hs => simp [Conference_duration, hs]
    | inr he =>
      cases hs : c.started_at with
      | none => simp [Conference_duration, hs]
      | some s =>
        have : (c.status == "active") = false := by
          cases hst : (c.status == "active") with
          | false => rfl
          | true => exact absurd (eq_of_beq hst) he.2
        simp [Conference_duration, hs, he.1, this]

def c4_conf_ended : ConferenceRow :=
  { id := 0
    server_id := 0
    room_name := "r"
    status := "ended"
    started_at := some 0
    ended_at := some 150
    max_participants := 0 }

def c4_conf_active : ConferenceRow :=
  { c4_conf_ended with status := "active", ended_at := none }

def c4_conf_scheduled : ConferenceRow :=
  { c4_conf_ended with status := "scheduled", ended_at := none }

/-- Witness for `C4_duration_cases` on three concrete conferences, one per
case of the claim. -/
theorem C4_duration_cases_witness :
    Conference_duration c4_conf_ended 600 = (150 - 0 : Int).tdiv 60
    ∧ Conference_duration c4_conf_active 600 = (600 - 0 : Int).tdiv 60
    ∧ Conference_duration c4_conf_scheduled 600 = 0 :=
  ⟨(C4_duration_cases c4_conf_ended 600).1 0 150 rfl rfl,
   (C4_duration_cases c4_conf_active 600).2.1 0 rfl rfl rfl,
   (C4_duration_cases c4_conf_scheduled 600).2.2 (Or.inr ⟨rfl, by decide⟩)⟩

/-! ## C8: fixed page sizes of the list views -/

/-- `Paginator(queryset, per_page).get_page(number)` of Django: a missing or
non-integer page number falls back to page 1, an out-of-range one to the
last page, and page `p` is the slice `[(p-1)*per_page, p*per_page)` of the
object list. -/
def paginator_num_pages (count per_page : Nat) : Nat :=
  max 1 ((count + per_page - 1) / per_page)

def paginator_get_page {α : Type} (object_list : List α) (per_page : Nat)
    (page_param : Option Int) : List α :=
  let num_pages := paginator_num_pages object_list.length per_page
  let number : Nat :=
    match page_param with
    | none => 1
    | some p =>
      if p < 1 then num_pages
      else if (num_pages : Int) < p then num_pages
      else p.toNat
  (object_list.drop ((number - 1) * per_page)).take per_page

/-- Case-insensitive substring search (`room_name__icontains`). -/
def icontains (hay needle : String) : Bool :=
  decide (List.IsInfix (pyLower needle).data (pyLower hay).data)

/-- Insertion into a list sorted by the Boolean comparator `le`. -/
def insert_by {α : Type} (le : α → α → Bool) (x : α) : List α → List α
  | [] => [x]
  | y :: ys => if le x y then x :: y :: ys else y :: insert_by le x ys

/-- Insertion sort by the Boolean comparator `le` (models `order_by`; the
claims only depend on the length of the result). -/
def sort_by {α : Type} (le : α → α → Bool) : List α → List α
  | [] => []
  | x :: xs => insert_by le x (sort_by le xs)

/-- `order_by('-started_at')`: descending by `started_at`. -/
def started_at_ge (a b : ConferenceRow) : Bool :=
  match a.started_at, b.started_at with
  | some x, some y => y ≤ x
  | some _, none => true
  | none, some _ => false
  | none, none => true

/-- `order_by('-joined_at')`: descending by `joined_at`. -/
def joined_at_ge (a b : ParticipantRow) : Bool :=
  b.joined_at ≤ a.joined_at

/-- The GET parameters read by `conference_list` (a `none` models an absent
parameter, which is falsy in the `if param:` guards). -/
structure ConferenceListRequest where
  status : Option String
  server : Option Nat
  q : Option String
  page : Option Int

/-- The GET parameters read by `participant_list`. -/
structure ParticipantListRequest where
  conference : Option Nat
  active : Option String
  page : Option Int

/-- `conference_list` of `dashboard/views.py`: status / server / search
filters, ordering by `-started_at`, then `Paginator(queryset, 20)`. -/
def conference_list_page (db : DB) (req : ConferenceListRequest) : List ConferenceRow :=
  let qs1 := match req.status with
    | none => db.conferences
    | some st => if st == "" then db.conferences
                 else db.conferences.filter (fun c => c.status == st)
  let qs2 := match req.server with
    | none => qs1
    | some sid => qs1.filter (fun c => c.server_id == sid)
  let qs3 := match req.q with
    | none => qs2
    | some search => if search == "" then qs2
                     else qs2.filter (fun c => icontains c.room_name search)
  paginator_get_page (sort_by started_at_ge qs3) 20 req.page

/-- `participant_list` of `dashboard/views.py`: conference / active filters,
ordering by `-joined_at`, then `Paginator(queryset, 50)`. -/
def participant_list_page (db : DB) (req : ParticipantListRequest) : List ParticipantRow :=
  let qs1 := match req.conference with
    | none => db.participants
    | some cid => db.participants.filter (fun p => p.conference_id == cid)
  let qs2 := match req.active with
    | none => qs1
    | some a => if a == "" then qs1 else qs1.filter (fun p => p.left_at == none)
  paginator_get_page (sort_by joined_at_ge qs2) 50 req.page

/-- C8: for every request, the conference list page holds at most 20
`Conference` rows and the participant list page at most 50 `Participant`
rows. -/
theorem C8_page_sizes (db : DB) (creq : ConferenceListRequest)
    (preq : ParticipantListRequest) :
    (conference_list_page db creq).length ≤ 20
    ∧ (participant_list_page db preq).length ≤ 50 := by
  constructor
  · exact List.length_take_le _ _
  · exact List.length_take_le _ _

/-! ## The Jitsi API client (`dashboard/jitsi_api.py`) -/

/-- The `JitsiServerConfig` dataclass of `dashboard/jitsi_api.py`. -/
structure JitsiServerConfig where
  base_url : String
  colibri_port : Nat
  jicofo_port : Nat
  jibri_port : Nat
  app_id : String
  app_secret : String
  verify_ssl : Bool
  deriving DecidableEq, Repr

/-- Python's `str.replace(pat, sub)` over character lists (all non-overlapping
occurrences, scanning left to right); `fuel` starts at the list length,
which each step consumes at least one character of. -/
def replace_all_go (fuel : Nat) (pat sub : List Char) : List Char → List Char
  | [] => []
  | c :: rest =>
    match fuel with
    | 0 => c :: rest
    | fuel' + 1 =>
      if pat ≠ [] ∧ pat.isPrefixOf (c :: rest)
      then sub ++ replace_all_go fuel' pat sub (rest.drop (pat.length - 1))
      else c :: replace_all_go fuel' pat sub rest

def replace_all (pat sub s : List Char) : List Char :=
  replace_all_go s.length pat sub s

def py_replace (s pat sub : String) : String :=
  String.mk (replace_all pat.data sub.data s.data)

/-- Python's `str.rstrip("/")`. -/
def py_rstrip_slash (s : String) : String :=
  String.mk ((s.data.reverse.dropWhile (fun ch => ch == '/')).reverse)

/-- `base_url.replace("https://", "").replace("http://", "")` — the host
used to build the plain-HTTP component URLs. -/
def strip_scheme_host (u : String) : String :=
  py_replace (py_replace u "https://" "") "http://" ""

/-! ## C5: JWT token generation (`JitsiAPI.generate_jwt_token`) -/

/-- The `default_features` dict of `generate_jwt_token`. -/
def default_features : List (String × Bool) :=
  [("livestreaming", true), ("recording", true), ("transcription", false),
   ("outbound-call", false), ("screen-sharing", true)]

/-- Python's `dict.update`: existing keys are overwritten, new keys
appended. -/
def dict_update (base upd : List (String × Bool)) : List (String × Bool) :=
  upd.foldl (fun acc kv =>
    if acc.any (fun e => e.1 == kv.1)
    then acc.map (fun e => if e.1 == kv.1 then kv else e)
    else acc ++ [kv]) base

/-- The `context.user` object of the JWT payload. -/
structure JwtUserContext where
  name : String
  email : String
  avatar : String
  moderator : Bool
  deriving DecidableEq, Repr

/-- The JWT payload built by `generate_jwt_token`. -/
structure JwtPayload where
  user : JwtUserContext
  features : List (String × Bool)
  room : String
  iss : String
  aud : String
  sub : String
  iat : Int
  exp : Int
  nbf : Int
  deriving DecidableEq, Repr

/-- A signed token as produced by `jwt.encode(payload, key,
algorithm="HS256")`: the payload together with the algorithm and the
signing key. -/
structure JwtToken where
  alg : String
  signing_key : String
  payload : JwtPayload
  deriving DecidableEq, Repr

/-- `JitsiAPI.generate_jwt_token` of `dashboard/jitsi_api.py`; `now` is
`int(time.time())`, and the `ValueError` raised on a missing secret is the
`Except.error` case. -/
def generate_jwt_token (config : JitsiServerConfig)
    (room_name user_name user_email : String) (is_moderator : Bool)
    (avatar_url : String) (expiry_hours : Int)
    (features : Option (List (String × Bool))) (now : Int) :
    Except String JwtToken :=
  if config.app_secret == "" then
    Except.error "app_secret is required for JWT generation"
  else
    let expiry := now + expiry_hours * 3600
    let feats := match features with
      | none => default_features
      | some f => dict_update default_features f
    Except.ok
      { alg := "HS256"
        signing_key := config.app_secret
        payload :=
          { user := { name := user_name
                      email := user_email
                      avatar := avatar_url
                      moderator := is_moderator }
            features := feats
            room := room_name
            iss := config.app_id
            aud := "jitsi"
            sub := py_rstrip_slash (strip_scheme_host config.base_url)
            iat := now
            exp := expiry
            nbf := now } }

/-- C5: `generate_jwt_token` errors exactly when the configured
`app_secret` is empty; otherwise the token is signed with HS256 and its
payload has `room` the given room name, `iss` the configured `app_id`,
`aud` `"jitsi"`, and `exp` equal to `iat` plus `expiry_hours * 3600`. -/
theorem C5_jwt_token (config : JitsiServerConfig)
    (room_name user_name user_email : String) (is_moderator : Bool)
    (avatar_url : String) (expiry_hours : Int)
    (features : Option (List (String × Bool))) (now : Int) :
    ((∃ e, generate_jwt_token config room_name user_name user_email is_moderator
        avatar_url expiry_hours features now = Except.error e)
      ↔ config.app_secret = "")
    ∧ (∀ t, generate_jwt_token config room_name user_name user_email is_moderator
        avatar_url expiry_hours features now = Except.ok t →
        t.alg = "HS256" ∧ t.signing_key = config.app_secret
        ∧ t.payload.room = room_name ∧ t.payload.iss = config.app_id
        ∧ t.payload.aud = "jitsi" ∧ t.payload.iat = now
        ∧ t.payload.exp = t.payload.iat + expiry_hours * 3600) := by
  cases hs : (config.app_secret == "") with
  | true =>
    constructor
    · constructor
      · intro _
        exact eq_of_beq hs
      · intro _
        refine ⟨"app_secret is required for JWT generation", ?_⟩
        simp [generate_jwt_token, hs]
    · intro t ht
      simp [generate_jwt_token, hs] at ht
  | false =>
    constructor
    · constructor
      · intro he
        obtain ⟨e, he⟩ := he
        simp [generate_jwt_token, hs] at he
      · intro he
        rw [he] at hs
        simp at hs
    · intro t ht
      simp only [generate_jwt_token, hs, Bool.false_eq_true, if_false,
        Except.ok.injEq] at ht
      subst ht
      refine ⟨rfl, rfl, rfl, rfl, rfl, rfl, rfl⟩

def c5_config : JitsiServerConfig :=
  { base_url := "https://192.168.117.153"
    colibri_port := 8080
    jicofo_port := 8888
    jibri_port := 2222
    app_id := "jitsi_dashboard"
    app_secret := "secret1"
    verify_ssl := false }

def c5_token : JwtToken :=
  { alg := "HS256"
    signing_key := "secret1"
    payload :=
      { user := { name := "Alice"
                  email := ""
                  avatar := ""
                  moderator := false }
        features := default_features
        room := "room1"
        iss := "jitsi_dashboard"
        aud := "jitsi"
        sub := "192.168.117.153"
        iat := 1000
        exp := 1000 + 24 * 3600
        nbf := 1000 } }

/-- Witness for `C5_jwt_token` on a concrete configuration and token. -/
theorem C5_jwt_token_witness :
    c5_token.alg = "HS256" ∧ c5_token.signing_key = c5_config.app_secret
    ∧ c5_token.payload.room = "room1" ∧ c5_token.payload.iss = c5_config.app_id
    ∧ c5_token.payload.aud = "jitsi" ∧ c5_token.payload.iat = 1000
    ∧ c5_token.payload.exp = c5_token.payload.iat + 24 * 3600 :=
  (C5_jwt_token c5_config "room1" "Alice" "" false "" 24 none 1000).2 c5_token rfl

/-! ## C6: the statistics and health calls make one request and never raise -/

/-- Parsed JSON values (`response.json()`). -/
inductive Json where
  | null
  | bool (b : Bool)
  | num (n : Int)
  | str (s : String)
  | arr (l : List Json)
  | obj (l : List (String × Json))

/-- Python's `dict.get(key, default)` on a JSON object. -/
def jget (j : Json) (key : String) (dflt : Json) : Json :=
  match j with
  | .obj l =>
    match l.find? (fun e => e.1 == key) with
    | some e => e.2
    | none => dflt
  | _ => dflt

/-- An HTTP response with status code and parsed JSON body.  A `none` from
the `Network` oracle models a `requests.exceptions.RequestException`. -/
structure HttpResponse where
  statusCode : Nat
  body : Json

def Network : Type := String → Option HttpResponse

/-- `_get_default_stats` of `dashboard/jitsi_api.py`: the fixed all-zero
stats structure returned when the Colibri API is unavailable. -/
def get_default_stats : Json :=
  Json.obj
    [("conferences", .num 0), ("participants", .num 0),
     ("largest_conference", .num 0), ("total_conferences_created", .num 0),
     ("total_participants", .num 0), ("bit_rate_download", .num 0),
     ("bit_rate_upload", .num 0), ("packet_rate_download", .num 0),
     ("packet_rate_upload", .num 0), ("stress_level", .num 0),
     ("drain", .bool false), ("graceful_shutdown", .bool false)]

def colibri_stats_url (config : JitsiServerConfig) : String :=
  "http://" ++ strip_scheme_host config.base_url ++ ":"
    ++ toString config.colibri_port ++ "/colibri/stats"

def jicofo_health_url (config : JitsiServerConfig) : String :=
  "http://" ++ strip_scheme_host config.base_url ++ ":"
    ++ toString config.jicofo_port ++ "/about/health"

def jicofo_stats_url (config : JitsiServerConfig) : String :=
  "http://" ++ strip_scheme_host config.base_url ++ ":"
    ++ toString config.jicofo_port ++ "/stats"

def jibri_health_url (config : JitsiServerConfig) : String :=
  "http://" ++ strip_scheme_host config.base_url ++ ":"
    ++ toString config.jibri_port ++ "/jibri/api/v1.0/health"

structure ColibriStatsResult where
  success : Bool
  data : Json
  error : Option String

structure JicofoHealthResult where
  success : Bool
  healthy : Bool
  status_code : Option Nat
  error : Option String

structure JicofoStatsResult where
  success : Bool
  data : Json
  error : Option String

structure JibriHealthResult where
  success : Bool
  status : Json
  health : Option Json
  data : Option Json
  error : Option String

/-- `JitsiAPI.get_colibri_stats`: one GET; `raise_for_status` turns a 4xx/5xx
answer into the same `except` branch as a request failure; the result pairs
the returned dict with the list of issued request URLs. -/
def get_colibri_stats (config : JitsiServerConfig) (net : Network) :
    ColibriStatsResult × List String :=
  let url := colibri_stats_url config
  match net url with
  | none =>
    ({ success := false, data := get_default_stats,
       error := some "RequestException" }, [url])
  | some response =>
    if 400 ≤ response.statusCode then
      ({ success := false, data := get_default_stats,
         error := some "HTTPError" }, [url])
    else
      ({ success := true, data := response.body, error := none }, [url])

/-- `JitsiAPI.get_jicofo_health`: one GET, no `raise_for_status`;
`healthy` is `status_code == 200`. -/
def get_jicofo_health (config : JitsiServerConfig) (net : Network) :
    JicofoHealthResult × List String :=
  let url := jicofo_health_url config
  match net url with
  | none =>
    ({ success := false, healthy := false, status_code := none,
       error := some "RequestException" }, [url])
  | some response =>
    ({ success := true, healthy := response.statusCode == 200,
       status_code := some response.statusCode, error := none }, [url])

/-- `JitsiAPI.get_jicofo_stats`: one GET with `raise_for_status`; the
failure data is the empty dict. -/
def get_jicofo_stats (config : JitsiServerConfig) (net : Network) :
    JicofoStatsResult × List String :=
  let url := jicofo_stats_url config
  match net url with
  | none =>
    ({ success := false, data := Json.obj [],
       error := some "RequestException" }, [url])
  | some response =>
    if 400 ≤ response.statusCode then
      ({ success := false, data := Json.obj [],
         error := some "HTTPError" }, [url])
    else
      ({ success := true, data := response.body, error := none }, [url])

/-- `JitsiAPI.get_jibri_health`: one GET with `raise_for_status`; on success
the busy status is `data.get("status", {}).get("busyStatus", "UNKNOWN")`. -/
def get_jibri_health (config : JitsiServerConfig) (net : Network) :
    JibriHealthResult × List String :=
  let url := jibri_health_url config
  match net url with
  | none =>
    ({ success := false, status := .str "UNAVAILABLE", health := none,
       data := none, error := some "RequestException" }, [url])
  | some response =>
    if 400 ≤ response.statusCode then
      ({ success := false, status := .str "UNAVAILABLE", health := none,
         data := none, error := some "HTTPError" }, [url])
    else
      ({ success := true
         status := jget (jget response.body "status" (.obj [])) "busyStatus" (.str "UNKNOWN")
         health := some (jget (jget response.body "status" (.obj [])) "health" (.obj []))
         data := some response.body
         error := none }, [url])

/-- C6: each of the four statistics/health calls issues exactly one HTTP
request per invocation (in particular, no retry), is total (the embedding
returns a value for every network behaviour instead of raising), and on a
request failure or error status answers with `success := false` — for
`get_colibri_stats` together with the fixed all-zero default stats. -/
theorem C6_single_request_no_raise (config : JitsiServerConfig) (net : Network) :
    ((get_colibri_stats config net).2.length = 1
      ∧ (get_jicofo_health config net).2.length = 1
      ∧ (get_jicofo_stats config net).2.length = 1
      ∧ (get_jibri_health config net).2.length = 1)
    ∧ (net (colibri_stats_url config) = none →
        (get_colibri_stats config net).1.success = false
        ∧ (get_colibri_stats config net).1.data = get_default_stats)
    ∧ (∀ r, net (colibri_stats_url config) = some r → 400 ≤ r.statusCode →
        (get_colibri_stats config net).1.success = false
        ∧ (get_colibri_stats config net).1.data = get_default_stats)
    ∧ (net (jicofo_health_url config) = none →
        (get_jicofo_health config net).1.success = false)
    ∧ (net (jicofo_stats_url config) = none →
        (get_jicofo_stats config net).1.success = false)
    ∧ (∀ r, net (jicofo_stats_url config) = some r → 400 ≤ r.statusCode →
        (get_jicofo_stats config net).1.success = false)
    ∧ (net (jibri_health_url config) = none →
        (get_jibri_health config net).1.success = false)
    ∧ (∀ r, net (jibri_health_url config) = some r → 400 ≤ r.statusCode →
        (get_jibri_health config net).1.success = false) := by
  refine ⟨⟨?_, ?_, ?_, ?_⟩, ?_, ?_, ?_, ?_, ?_, ?_, ?_⟩
  · cases h : net (colibri_stats_url config) with
    | none => simp [get_colibri_stats, h]
    | some r =>
      by_cases hc : 400 ≤ r.statusCode
      · simp [get_colibri_stats, h, hc]
      · simp [get_colibri_stats, h, hc]
  · cases h : net (jicofo_health_url config) with
    | none => simp [get_jicofo_health, h]
    | some r => simp [get_jicofo_health, h]
  · cases h : net (jicofo_stats_url config) with
    | none => simp [get_jicofo_stats, h]
    | some r =>
      by_cases hc : 400 ≤ r.statusCode
      · simp [get_jicofo_stats, h, hc]
      · simp [get_jicofo_stats, h, hc]
  · cases h : net (jibri_health_url config) with
    | none => simp [get_jibri_health, h]
    | some r =>
      by_cases hc : 400 ≤ r.statusCode
      · simp [get_jibri_health, h, hc]
      · simp [get_jibri_health, h, hc]
  · intro h
    constructor
    · simp [get_colibri_stats, h]
    · simp [get_colibri_stats, h]
  · intro r hr hcode
    constructor
    · simp [get_colibri_stats, hr, hcode]
    · simp [get_colibri_stats, hr, hcode]
  · intro h
    simp [get_jicofo_health, h]
  · intro h
    simp [get_jicofo_stats, h]
  · intro r hr hcode
    simp [get_jicofo_stats, hr, hcode]
  · intro h
    simp [get_jibri_health, h]
  · intro r hr hcode
    simp [get_jibri_health, hr, hcode]

def net_down : Network := fun _ => none

def server_error_response : HttpResponse :=
  { statusCode := 500, body := Json.obj [] }

def net_error : Network := fun _ => some server_error_response

/-- Witness for `C6_single_request_no_raise`: a dead network and an
all-500 network at a concrete configuration. -/
theorem C6_single_request_no_raise_witness :
    ((get_colibri_stats c5_config net_down).2.length = 1
      ∧ (get_jicofo_health c5_config net_down).2.length = 1
      ∧ (get_jicofo_stats c5_config net_down).2.length = 1
      ∧ (get_jibri_health c5_config net_down).2.length = 1)
    ∧ ((get_colibri_stats c5_config net_down).1.success = false
        ∧ (get_colibri_stats c5_config net_down).1.data = get_default_stats)
    ∧ ((get_colibri_stats c5_config net_error).1.success = false
        ∧ (get_colibri_stats c5_config net_error).1.data = get_default_stats)
    ∧ (get_jicofo_health c5_config net_down).1.success = false
    ∧ (get_jicofo_stats c5_config net_down).1.success = false
    ∧ (get_jicofo_stats c5_config net_error).1.success = false
    ∧ (get_jibri_health c5_config net_down).1.success = false
    ∧ (get_jibri_health c5_config net_error).1.success = false :=
  ⟨(C6_single_request_no_raise c5_config net_down).1,
   (C6_single_request_no_raise c5_config net_down).2.1 rfl,
   (C6_single_request_no_raise c5_config net_error).2.2.1
     server_error_response rfl (by decide),
   (C6_single_request_no_raise c5_config net_down).2.2.2.1 rfl,
   (C6_single_request_no_raise c5_config net_down).2.2.2.2.1 rfl,
   (C6_single_request_no_raise c5_config net_error).2.2.2.2.2.1
     server_error_response rfl (by decide),
   (C6_single_request_no_raise c5_config net_down).2.2.2.2.2.2.1 rfl,
   (C6_single_request_no_raise c5_config net_error).2.2.2.2.2.2.2
     server_error_response rfl (by decide)⟩

/-! ## C9: at most one primary `JitsiServer` -/

/-- An in-memory `JitsiServer` instance about to be saved (`pk = none`
models an unsaved object, whose `save` inserts a fresh row). -/
structure JitsiServerObj where
  pk : Option Nat
  name : String
  is_active : Bool
  is_primary : Bool
  deriving DecidableEq, Repr

/-- The row written for an object saved under primary key `p`. -/
def row_of_obj (o : JitsiServerObj) (p : Nat) : JitsiServerRow :=
  { pk := p, name := o.name, is_active := o.is_active, is_primary := o.is_primary }

/-- The auto-assigned primary key of an inserted row. -/
def fresh_pk (servers : List JitsiServerRow) : Nat :=
  (servers.map (fun r => r.pk)).foldl max 0 + 1

/-- `JitsiServer.objects.filter(is_primary=True).exclude(pk=self.pk)
.update(is_primary=False)` — the demotion step of `JitsiServer.save`
(`exclude(pk=None)` excludes nothing, so an unsaved object demotes every
primary row). -/
def demote_other_primaries (pk? : Option Nat) (servers : List JitsiServerRow) :
    List JitsiServerRow :=
  servers.map (fun r =>
    if r.is_primary && pk? != some r.pk then { r with is_primary := false } else r)

/-- `super().save()`: update the row with the object's primary key if it
exists, insert otherwise. -/
def upsert_server (o : JitsiServerObj) (servers1 : List JitsiServerRow) :
    List JitsiServerRow :=
  match o.pk with
  | some p =>
    if servers1.any (fun r => r.pk == p) then
      servers1.map (fun r => if r.pk == p then row_of_obj o p else r)
    else servers1 ++ [row_of_obj o p]
  | none => servers1 ++ [row_of_obj o (fresh_pk servers1)]

/-- `JitsiServer.save` of `dashboard/models.py`. -/
def JitsiServer_save (o : JitsiServerObj) (servers : List JitsiServerRow) :
    List JitsiServerRow :=
  upsert_server o (if o.is_primary then demote_other_primaries o.pk servers else servers)

def primary_count (servers : List JitsiServerRow) : Nat :=
  servers.countP (fun r => r.is_primary)

/-- The primary key under which `save` writes the object's row. -/
def assigned_pk (o : JitsiServerObj) (servers : List JitsiServerRow) : Nat :=
  match o.pk with
  | some p => p
  | none =>
    fresh_pk (if o.is_primary then demote_other_primaries o.pk servers else servers)

theorem demote_pks (pk? : Option Nat) (l : List JitsiServerRow) :
    (demote_other_primaries pk? l).map (fun r => r.pk) = l.map (fun r => r.pk) := by
  unfold demote_other_primaries
  rw [List.map_map]
  apply List.map_congr_left
  intro r _
  by_cases h : (r.is_primary && pk? != some r.pk) = true
  · simp [Function.comp, h]
  · simp only [Bool.not_eq_true] at h
    simp [Function.comp, h]

theorem demote_primary_pk (pk? : Option Nat) (l : List JitsiServerRow) :
    ∀ r ∈ demote_other_primaries pk? l, r.is_primary = true → pk? = some r.pk := by
  intro r hr hp
  unfold demote_other_primaries at hr
  obtain ⟨x, hx, hxr⟩ := List.mem_map.mp hr
  by_cases hc : (x.is_primary && pk? != some x.pk) = true
  · rw [if_pos hc] at hxr
    rw [← hxr] at hp
    simp at hp
  · rw [if_neg hc] at hxr
    subst hxr
    simp only [Bool.not_eq_true, Bool.and_eq_false_iff] at hc
    cases hc with
    | inl h => rw [h] at hp; exact absurd hp (by simp)
    | inr h => exact bne_eq_false_iff_eq.mp h

theorem foldl_max_ge_init (l : List Nat) (a : Nat) : a ≤ l.foldl max a := by
  induction l generalizing a with
  | nil => exact Nat.le_refl a
  | cons y t ih => exact Nat.le_trans (Nat.le_max_left a y) (ih (max a y))

theorem foldl_max_ge_mem (l : List Nat) (a : Nat) :
    ∀ x ∈ l, x ≤ l.foldl max a := by
  induction l generalizing a with
  | nil => intro x hx; cases hx
  | cons y t ih =>
    intro x hx
    cases hx with
    | head => exact Nat.le_trans (Nat.le_max_right a y) (foldl_max_ge_init t (max a y))
    | tail _ hx => exact ih (max a y) x hx

theorem fresh_pk_not_mem (l : List JitsiServerRow) :
    fresh_pk l ∉ l.map (fun r => r.pk) := by
  intro hmem
  have := foldl_max_ge_mem (l.map (fun r => r.pk)) 0 _ hmem
  unfold fresh_pk at this
  omega

theorem countP_le_one_of_shared_key {α : Type} (key : α → Nat) (p : α → Bool) (A : Nat)
    (l : List α) (hnd : (l.map key).Nodup) (hall : ∀ r ∈ l, p r = true → key r = A) :
    l.countP p ≤ 1 := by
  induction l with
  | nil => simp
  | cons x t ih =>
    rw [List.map_cons, List.nodup_cons] at hnd
    by_cases hx : p x = true
    · have hkx := hall x (List.mem_cons_self _ _) hx
      have ht0 : t.countP p = 0 := by
        rw [List.countP_eq_zero]
        intro a ha hpa
        have hka := hall a (List.mem_cons_of_mem _ ha) hpa
        exact hnd.1 (by rw [hkx, ← hka]; exact List.mem_map_of_mem key ha)
      rw [List.countP_cons, ht0, hx]
      simp
    · simp only [Bool.not_eq_true] at hx
      rw [List.countP_cons, hx]
      simpa using ih hnd.2 (fun r hr => hall r (List.mem_cons_of_mem _ hr))

/-- Primary keys are preserved by the saved tables: the pk multiset of
`JitsiServer_save` is that of the input plus, for an insert, one fresh key;
in particular pk-distinctness is preserved. -/
theorem save_pks_nodup (o : JitsiServerObj) (servers : List JitsiServerRow)
    (hnd : (servers.map (fun r => r.pk)).Nodup) :
    ((JitsiServer_save o servers).map (fun r => r.pk)).Nodup := by
  unfold JitsiServer_save
  set servers1 := if o.is_primary then demote_other_primaries o.pk servers else servers with hs1
  have hpks1 : servers1.map (fun r => r.pk) = servers.map (fun r => r.pk) := by
    rw [hs1]
    by_cases hop : o.is_primary = true
    · rw [if_pos hop, demote_pks]
    · rw [if_neg hop]
  unfold upsert_server
  cases hpk : o.pk with
  | some p =>
    dsimp only
    by_cases hany : (servers1.any (fun r => r.pk == p)) = true
    · rw [if_pos hany]
      have : (servers1.map (fun r => if r.pk == p then row_of_obj o p else r)).map
          (fun r => r.pk) = servers1.map (fun r => r.pk) := by
        rw [List.map_map]
        apply List.map_congr_left
        intro r _
        by_cases hr : (r.pk == p) = true
        · simp [Function.comp, hr, row_of_obj, eq_of_beq hr]
        · simp only [Bool.not_eq_true] at hr
          simp [Function.comp, hr]
      rw [this, hpks1]
      exact hnd
    · rw [if_neg hany]
      rw [List.map_append]
      rw [List.nodup_append]
      refine ⟨by rw [hpks1]; exact hnd, List.nodup_singleton _, ?_⟩
      intro a ha hb
      simp only [List.map_cons, List.map_nil, List.mem_singleton, row_of_obj] at hb
      subst hb
      simp only [Bool.not_eq_true] at hany
      rw [List.any_eq_false] at hany
      obtain ⟨x, hx, hxa⟩ := List.mem_map.mp ha
      have := hany x hx
      rw [← hxa] at this
      simp at this
  | none =>
    dsimp only
    rw [List.map_append]
    rw [List.nodup_append]
    refine ⟨by rw [hpks1]; exact hnd, List.nodup_singleton _, ?_⟩
    intro a ha hb
    simp only [List.map_cons, List.map_nil, List.mem_singleton, row_of_obj] at hb
    subst hb
    exact fresh_pk_not_mem servers1 ha

/-- C9: saving a primary server leaves it as the only primary row, and the
"at most one primary" invariant is preserved by every save, on every table
with distinct primary keys. -/
theorem C9_single_primary (o : JitsiServerObj) (servers : List JitsiServerRow)
    (hnd : (servers.map (fun r => r.pk)).Nodup) :
    (o.is_primary = true →
      ∀ r ∈ JitsiServer_save o servers, r.is_primary = true →
        r.pk = assigned_pk o servers)
    ∧ (o.is_primary = true → primary_count (JitsiServer_save o servers) ≤ 1)
    ∧ (primary_count servers ≤ 1 → primary_count (JitsiServer_save o servers) ≤ 1) := by
  have hA : o.is_primary = true →
      ∀ r ∈ JitsiServer_save o servers, r.is_primary = true →
        r.pk = assigned_pk o servers := by
    intro hop r hr hp
    unfold JitsiServer_save at hr
    rw [if_pos hop] at hr
    unfold upsert_server at hr
    cases hpk : o.pk with
    | some p =>
      rw [hpk] at hr
      dsimp only at hr
      by_cases hany : ((demote_other_primaries (some p) servers).any (fun r => r.pk == p)) = true
      · rw [if_pos hany] at hr
        obtain ⟨x, hx, hxr⟩ := List.mem_map.mp hr
        by_cases hxp : (x.pk == p) = true
        · rw [if_pos hxp] at hxr
          rw [← hxr]
          simp [row_of_obj, assigned_pk, hpk]
        · rw [if_neg hxp] at hxr
          rw [← hxr] at hp
          have hsome := demote_primary_pk (some p) servers x hx hp
          injection hsome with h
          rw [← hxr]
          exact absurd (beq_iff_eq.mpr h.symm) (by simpa using hxp)
      · rw [if_neg hany] at hr
        rcases List.mem_append.mp hr with hl | hl
        · have hsome := demote_primary_pk (some p) servers r hl hp
          injection hsome with h
          simp [assigned_pk, hpk, h]
        · simp only [List.mem_singleton] at hl
          subst hl
          simp [row_of_obj, assigned_pk, hpk]
    | none =>
      rw [hpk] at hr
      dsimp only at hr
      rcases List.mem_append.mp hr with hl | hl
      · have hnone := demote_primary_pk none servers r hl hp
        exact Option.noConfusion hnone
      · simp only [List.mem_singleton] at hl
        subst hl
        simp only [row_of_obj]
        simp [assigned_pk, hpk, hop]
  refine ⟨hA, ?_, ?_⟩
  · intro hop
    exact countP_le_one_of_shared_key (fun r : JitsiServerRow => r.pk)
      (fun r : JitsiServerRow => r.is_primary)
      (assigned_pk o servers) _ (save_pks_nodup o servers hnd) (hA hop)
  · intro hcnt
    by_cases hop : o.is_primary = true
    · exact countP_le_one_of_shared_key (fun r : JitsiServerRow => r.pk)
        (fun r : JitsiServerRow => r.is_primary)
        (assigned_pk o servers) _ (save_pks_nodup o servers hnd) (hA hop)
    · simp only [Bool.not_eq_true] at hop
      unfold JitsiServer_save
      rw [hop]
      simp only [Bool.false_eq_true, if_false]
      unfold upsert_server
      cases hpk : o.pk with
      | some p =>
        dsimp only
        by_cases hany : (servers.any (fun r => r.pk == p)) = true
        · rw [if_pos hany]
          unfold primary_count at hcnt ⊢
          rw [List.countP_map]
          refine Nat.le_trans ?_ hcnt
          apply List.countP_mono_left
          intro r _ hr
          simp only [Function.comp] at hr
          by_cases hrp : (r.pk == p) = true
          · rw [if_pos hrp] at hr
            exact absurd hr (by simp [row_of_obj, hop])
          · rw [if_neg hrp] at hr
            exact hr
        · rw [if_neg hany]
          unfold primary_count at hcnt ⊢
          rw [List.countP_append]
          have : List.countP (fun r => r.is_primary) [row_of_obj o p] = 0 := by
            simp [row_of_obj, hop]
          omega
      | none =>
        dsimp only
        unfold primary_count at hcnt ⊢
        rw [List.countP_append]
        have : List.countP (fun r => r.is_primary)
            [row_of_obj o (fresh_pk servers)] = 0 := by
          simp [row_of_obj, hop]
        omega

def c9_table : List JitsiServerRow :=
  [{ pk := 1, name := "a", is_active := true, is_primary := true },
   { pk := 2, name := "b", is_active := true, is_primary := false }]

def c9_obj : JitsiServerObj :=
  { pk := some 2, name := "b", is_active := true, is_primary := true }

def c9_saved_row : JitsiServerRow :=
  { pk := 2, name := "b", is_active := true, is_primary := true }

/-- Witness for `C9_single_primary`: promoting server 2 on a two-row table
demotes server 1 and keeps the primary count at one. -/
theorem C9_single_primary_witness :
    c9_saved_row.pk = assigned_pk c9_obj c9_table
    ∧ primary_count (JitsiServer_save c9_obj c9_table) ≤ 1 :=
  ⟨(C9_single_primary c9_obj c9_table (by decide)).1 rfl c9_saved_row
      (by decide) rfl,
   (C9_single_primary c9_obj c9_table (by decide)).2.1 rfl⟩

/-! ## C10: `DashboardSettings` is a singleton -/

/-- A row of the `DashboardSettings` model; `high_load_threshold` (a float
in the source, default `0.8`) is modelled as an exact rational. -/
structure DashboardSettingsRow where
  pk : Nat
  refresh_interval_seconds : Int
  default_jwt_expiry_hours : Int
  enable_webhooks : Bool
  webhook_secret : String
  dark_mode : Bool
  show_bandwidth_graphs : Bool
  max_recent_conferences : Int
  notify_on_new_conference : Bool
  notify_on_high_load : Bool
  high_load_threshold : Rat
  deriving DecidableEq

/-- The model's field defaults (`dashboard/models.py`). -/
def default_settings : DashboardSettingsRow :=
  { pk := 1
    refresh_interval_seconds := 5
    default_jwt_expiry_hours := 24
    enable_webhooks := true
    webhook_secret := ""
    dark_mode := true
    show_bandwidth_graphs := true
    max_recent_conferences := 50
    notify_on_new_conference := false
    notify_on_high_load := true
    high_load_threshold := (8 : Rat) / 10 }

/-- `DashboardSettings.save`: `self.pk = 1` before `super().save()`, which
updates the row with pk 1 if present and inserts it otherwise. -/
def DashboardSettings_save (s : DashboardSettingsRow)
    (table : List DashboardSettingsRow) : List DashboardSettingsRow :=
  if table.any (fun r => r.pk == 1) then
    table.map (fun r => if r.pk == 1 then { s with pk := 1 } else r)
  else table ++ [{ s with pk := 1 }]

/-- `DashboardSettings.get_settings`: `objects.get_or_create(pk=1)`,
returning the row together with the (possibly extended) table. -/
def DashboardSettings_get_settings (table : List DashboardSettingsRow) :
    DashboardSettingsRow × List DashboardSettingsRow :=
  match table.find? (fun r => r.pk == 1) with
  | some r => (r, table)
  | none => (default_settings, table ++ [default_settings])

/-- The singleton shape of the settings table: at most one row, keyed 1. -/
def settings_singleton_inv (table : List DashboardSettingsRow) : Prop :=
  table.length ≤ 1 ∧ ∀ r ∈ table, r.pk = 1

/-- C10: every `DashboardSettings.save` writes its row under primary key 1,
the singleton shape of the table is preserved by every save, and
`get_settings` always answers the row with primary key 1, creating it with
the model's default field values when it is missing. -/
theorem C10_settings_singleton (s : DashboardSettingsRow)
    (table : List DashboardSettingsRow) :
    (∀ r ∈ DashboardSettings_save s table, r ∈ table ∨ r.pk = 1)
    ∧ (settings_singleton_inv table →
        settings_singleton_inv (DashboardSettings_save s table))
    ∧ (DashboardSettings_get_settings table).1.pk = 1
    ∧ (table.find? (fun r => r.pk == 1) = none →
        DashboardSettings_get_settings table
          = (default_settings, table ++ [default_settings])) := by
  refine ⟨?_, ?_, ?_, ?_⟩
  · intro r hr
    unfold DashboardSettings_save at hr
    by_cases hany : (table.any (fun r => r.pk == 1)) = true
    · rw [if_pos hany] at hr
      obtain ⟨x, hx, hxr⟩ := List.mem_map.mp hr
      by_cases hx1 : (x.pk == 1) = true
      · rw [if_pos hx1] at hxr
        right
        rw [← hxr]
      · rw [if_neg hx1] at hxr
        left
        rw [← hxr]
        exact hx
    · rw [if_neg hany] at hr
      rcases List.mem_append.mp hr with hl | hl
      · exact Or.inl hl
      · right
        simp only [List.mem_singleton] at hl
        rw [hl]
  · intro hinv
    unfold DashboardSettings_save
    by_cases hany : (table.any (fun r => r.pk == 1)) = true
    · rw [if_pos hany]
      constructor
      · rw [List.length_map]
        exact hinv.1
      · intro r hr
        obtain ⟨x, hx, hxr⟩ := List.mem_map.mp hr
        have hx1 : (x.pk == 1) = true := beq_iff_eq.mpr (hinv.2 x hx)
        rw [if_pos hx1] at hxr
        rw [← hxr]
    · rw [if_neg hany]
      cases htab : table with
      | nil =>
        constructor
        · simp
        · intro r hr
          simp only [List.nil_append, List.mem_singleton] at hr
          rw [hr]
      | cons x t =>
        exfalso
        have hx1 : x.pk = 1 := hinv.2 x (htab ▸ List.mem_cons_self _ _)
        apply hany
        rw [htab, List.any_cons]
        simp [hx1]
  · unfold DashboardSettings_get_settings
    cases hf : table.find? (fun r => r.pk == 1) with
    | some r =>
      have := List.find?_some hf
      exact eq_of_beq this
    | none => rfl
  · intro hf
    unfold DashboardSettings_get_settings
    rw [hf]

def c10_table : List DashboardSettingsRow :=
  [{ default_settings with pk := 1, dark_mode := false }]

def c10_obj : DashboardSettingsRow :=
  { default_settings with pk := 9, refresh_interval_seconds := 10 }

/-- Witness for `C10_settings_singleton`: saving an object with a stray pk
onto a one-row table keeps the singleton shape, and `get_settings` on an
empty table creates the default row. -/
theorem C10_settings_singleton_witness :
    ({ c10_obj with pk := 1 } ∈ c10_table
      ∨ ({ c10_obj with pk := 1 } : DashboardSettingsRow).pk = 1)
    ∧ settings_singleton_inv (DashboardSettings_save c10_obj c10_table)
    ∧ (DashboardSettings_get_settings []).1.pk = 1
    ∧ DashboardSettings_get_settings [] = (default_settings, [] ++ [default_settings]) :=
  ⟨(C10_settings_singleton c10_obj c10_table).1 { c10_obj with pk := 1 }
      (List.mem_singleton.mpr rfl),
   (C10_settings_singleton c10_obj c10_table).2.1 ⟨by decide, by decide⟩,
   (C10_settings_singleton c10_obj []).2.2.1,
   (C10_settings_singleton c10_obj []).2.2.2 rfl⟩

end JitsiDashboard
